import Mathlib

/-
Shallow embedding of the TS_Display class of the XPT2046_Touchscreen_TT
repository (src/TS_Display.h, src/TS_Display.cpp) and the parts of its
environment that its behaviour depends on.

Modelling conventions:
* C `int16_t` values are modelled as `Int`; a store into an `int16_t`
  variable applies the two's-complement wrap `toInt16`.
* C `uint32_t` values are modelled as `Nat` reduced modulo `2^32`
  (`U32`); `uint32_t` subtraction is the wrapping `wsub32`.
* C `long` division (used by Arduino's `map`) truncates toward zero:
  `Int.tdiv`.
* IEEE `float` arithmetic in `findTS_calibration` is modelled as exact
  rational arithmetic; the final `(int16_t)` cast truncates toward zero,
  which is expressed over `Int` by clearing the denominator into a single
  `Int.tdiv` (see the doc comment there).
* The hardware collaborators are passed in as values: the raw sample
  `_ts->getPoint()` becomes a `TS_Point` argument, the clock `millis()`
  becomes a `Nat` argument, and the display's rotation/width/height are
  arguments of `begin`.
-/

/-- Constant TS_UL_SHORT of TS_Display.cpp. -/
def TS_UL_SHORT : Int := 3800

/-- Constant TS_UL_LONG of TS_Display.cpp. -/
def TS_UL_LONG : Int := 3700

/-- Constant TS_LR_SHORT of TS_Display.cpp. -/
def TS_LR_SHORT : Int := 275

/-- Constant TS_LR_LONG of TS_Display.cpp. -/
def TS_LR_LONG : Int := 165

/-- Constant TS_OFFSET of TS_Display.cpp, used to flip touchscreen coordinates. -/
def TS_OFFSET : Int := 4095

/-- Constant DEF_DEBOUNCE_MS_TR of TS_Display.h. -/
def DEF_DEBOUNCE_MS_TR : Nat := 20

/-- Constant DEF_MIN_TOUCH_PRES of TS_Display.h. -/
def DEF_MIN_TOUCH_PRES : Int := 5

/-- Constant DEF_MAX_RELEASE_PRES of TS_Display.h. -/
def DEF_MAX_RELEASE_PRES : Int := 0

/-- Wrapping conversion to the `int16_t` range, as performed by a store of a
wider integer into an `int16_t` variable (two's-complement wrap-around). -/
def toInt16 (v : Int) : Int := (v + 32768) % 65536 - 32768

/-- Modulus of the `uint32_t` type. -/
def U32 : Nat := 4294967296

/-- Wrapping `uint32_t` subtraction `a - b`, as in `millis() - _msTime`. -/
def wsub32 (a b : Nat) : Nat := (a % U32 + (U32 - b % U32)) % U32

/-- Arduino core's integer `map` function:
`(x - in_min) * (out_max - out_min) / (in_max - in_min) + out_min` over C
`long`, whose division truncates toward zero.  This function comes from the
Arduino core, not from this repository; its canonical definition is embedded
because `mapTStoDisplay` and `mapDisplayToTS` call it. -/
def arduinoMap (x inMin inMax outMin outMax : Int) : Int :=
  Int.tdiv ((x - inMin) * (outMax - outMin)) (inMax - inMin) + outMin

/-- Enum eTouchEvent of TS_Display.h. -/
inductive eTouchEvent where
  | TS_UNCERTAIN
  | TS_NO_TOUCH
  | TS_TOUCH_PRESENT
  | TS_TOUCH_EVENT
  | TS_RELEASE_EVENT
deriving DecidableEq, Repr

/-- Class TS_Point of XPT2046_Touchscreen_TT.h: one raw touchscreen sample
(coordinates and pressure, `int16_t` each). -/
structure TS_Point where
  x : Int
  y : Int
  z : Int
deriving DecidableEq, Repr

/-- The data members of class TS_Display (TS_Display.h).  The `_ts` and
`_disp` pointers are omitted: the values read through them are arguments of
the operations that read them. -/
structure TS_Display where
  TS_UL_X : Int
  TS_UL_Y : Int
  TS_LR_X : Int
  TS_LR_Y : Int
  debounceMS_TR : Nat
  minTouchPres : Int
  maxReleasePres : Int
  lastEventWasTouch : Bool
  msTime : Nat
  pixelsX : Int
  pixelsY : Int
deriving DecidableEq, Repr

/-- TS_Display::begin (TS_Display.cpp).  `rotation`, `width` and `height` are
the values read from `_disp`; `now` is the value of `millis()`.  The C
`switch` has no `default` case, so a rotation outside 0..3 leaves the four
calibration members unchanged. -/
def TS_Display.begin (s : TS_Display) (rotation : Nat) (width height : Int)
    (now : Nat) : TS_Display :=
  let b :=
    match rotation with
    | 0 => (TS_OFFSET - TS_LR_SHORT, TS_OFFSET - TS_LR_LONG,
            TS_OFFSET - TS_UL_SHORT, TS_OFFSET - TS_UL_LONG)
    | 1 => (TS_OFFSET - TS_LR_SHORT, TS_UL_SHORT,
            TS_OFFSET - TS_UL_SHORT, TS_LR_SHORT)
    | 2 => (TS_UL_SHORT, TS_UL_SHORT, TS_LR_SHORT, TS_LR_SHORT)
    | 3 => (TS_UL_SHORT, TS_OFFSET - TS_LR_LONG,
            TS_LR_SHORT, TS_OFFSET - TS_UL_LONG)
    | _ => (s.TS_UL_X, s.TS_UL_Y, s.TS_LR_X, s.TS_LR_Y)
  { s with
    TS_UL_X := b.1, TS_UL_Y := b.2.1, TS_LR_X := b.2.2.1, TS_LR_Y := b.2.2.2,
    debounceMS_TR := DEF_DEBOUNCE_MS_TR,
    minTouchPres := DEF_MIN_TOUCH_PRES,
    maxReleasePres := DEF_MAX_RELEASE_PRES,
    lastEventWasTouch := false,
    msTime := now % U32,
    pixelsX := width, pixelsY := height }

/-- TS_Display::mapTStoDisplay (TS_Display.cpp): both axes through Arduino
`map`, stored into `int16_t` out-parameters. -/
def TS_Display.mapTStoDisplay (s : TS_Display) (TSx TSy : Int) : Int × Int :=
  (toInt16 (arduinoMap TSx s.TS_UL_X s.TS_LR_X 0 s.pixelsX),
   toInt16 (arduinoMap TSy s.TS_UL_Y s.TS_LR_Y 0 s.pixelsY))

/-- TS_Display::mapDisplayToTS (TS_Display.cpp): the reverse `map` calls. -/
def TS_Display.mapDisplayToTS (s : TS_Display) (x y : Int) : Int × Int :=
  (toInt16 (arduinoMap x 0 s.pixelsX s.TS_UL_X s.TS_LR_X),
   toInt16 (arduinoMap y 0 s.pixelsY s.TS_UL_Y s.TS_LR_Y))

/-- TS_Display::GetCalibration_UL_LR (TS_Display.cpp): the four out-parameters
`(x_UL, y_UL, x_LR, y_LR)`. -/
def TS_Display.GetCalibration_UL_LR (s : TS_Display) (pixelOffset : Int) :
    Int × Int × Int × Int :=
  (pixelOffset, pixelOffset,
   toInt16 (s.pixelsX - pixelOffset - 1),
   toInt16 (s.pixelsY - pixelOffset - 1))

/-- The four out-parameters of TS_Display::findTS_calibration. -/
structure CalibResult where
  TS_LR_X : Int
  TS_LR_Y : Int
  TS_UL_X : Int
  TS_UL_Y : Int
deriving DecidableEq, Repr

/-- TS_Display::findTS_calibration (TS_Display.cpp).  The C code computes the
per-axis scale `sx = (float)(TSx_LR - TSx_UL)/(x_LR - x_UL)` in IEEE float and
truncates `TSx_UL + (k - x_UL)*sx` to `int16_t` for `k = 0` and
`k = _pixelsX` (likewise for y).  The float arithmetic is modelled as exact
rational arithmetic; truncation toward zero of `TSx_UL + (k - x_UL)*n/d` is
expressed over `Int` by clearing the denominator:
`Int.tdiv (TSx_UL*d + (k - x_UL)*n) d`.  The degenerate denominator
`x_LR = x_UL` (an IEEE division by zero, giving an infinite scale, in the C
code) is not guarded against; `Int.tdiv _ 0 = 0` stands in for that junk
value. -/
def TS_Display.findTS_calibration (s : TS_Display)
    (xUL yUL xLR yLR TSxUL TSyUL TSxLR TSyLR : Int) : CalibResult :=
  let sxN := TSxLR - TSxUL
  let sxD := xLR - xUL
  let syN := TSyLR - TSyUL
  let syD := yLR - yUL
  { TS_UL_X := Int.tdiv (TSxUL * sxD + (0 - xUL) * sxN) sxD
    TS_LR_X := Int.tdiv (TSxUL * sxD + (s.pixelsX - xUL) * sxN) sxD
    TS_UL_Y := Int.tdiv (TSyUL * syD + (0 - yUL) * syN) syD
    TS_LR_Y := Int.tdiv (TSyUL * syD + (s.pixelsY - yUL) * syN) syD }

/-- TS_Display::setTS_calibration (TS_Display.h). -/
def TS_Display.setTS_calibration (s : TS_Display) (lrX lrY ulX ulY : Int) :
    TS_Display :=
  { s with TS_LR_X := lrX, TS_LR_Y := lrY, TS_UL_X := ulX, TS_UL_Y := ulY }

/-- Return value and out-parameters of one TS_Display::getTouchEvent call,
together with the updated instance state. -/
structure TouchEventResult where
  ret : eTouchEvent
  x : Int
  y : Int
  pres : Int
  state : TS_Display
deriving Repr

/-- The pressure-classification block at the top of TS_Display::getTouchEvent
(TS_Display.cpp lines 121-128): the locals `(currentTSeventIsTouch, ret)`
after the if/else-if chain on `pres`.  In the hysteresis band neither branch
fires, so the pair keeps `_lastEventWasTouch` and `TS_UNCERTAIN`. -/
def TS_Display.classifyPair (s : TS_Display) (pres : Int) :
    Bool × eTouchEvent :=
  if pres ≥ s.minTouchPres then (true, .TS_TOUCH_PRESENT)
  else if pres ≤ s.maxReleasePres then (false, .TS_NO_TOUCH)
  else (s.lastEventWasTouch, .TS_UNCERTAIN)

/-- TS_Display::getTouchEvent (TS_Display.cpp).  The raw sample
`p = _ts->getPoint()` is the argument `p`; the (up to three) `millis()` reads
within one invocation are modelled as one sampled clock value `now`.  The
locals `(currentTSeventIsTouch, ret)` of the C code are `classifyPair`. -/
def TS_Display.getTouchEvent (s : TS_Display) (p : TS_Point) (now : Nat) :
    TouchEventResult :=
  let xy := s.mapTStoDisplay p.x p.y
  if s.lastEventWasTouch = (s.classifyPair p.z).1 then
    { ret := (s.classifyPair p.z).2, x := xy.1, y := xy.2, pres := p.z,
      state := { s with msTime := now % U32 } }
  else if wsub32 now s.msTime < s.debounceMS_TR then
    { ret := (s.classifyPair p.z).2, x := xy.1, y := xy.2, pres := p.z,
      state := s }
  else
    { ret := if (s.classifyPair p.z).1 then .TS_TOUCH_EVENT
             else .TS_RELEASE_EVENT,
      x := xy.1, y := xy.2, pres := p.z,
      state :=
        { s with msTime := now % U32,
                 lastEventWasTouch := (s.classifyPair p.z).1 } }

/-- Run a finite sequence of getTouchEvent polls, collecting the returned
eTouchEvent values in order and threading the instance state. -/
def TS_Display.runPolls (s : TS_Display) :
    List (TS_Point × Nat) → List eTouchEvent × TS_Display
  | [] => ([], s)
  | pn :: rest =>
    let r := s.getTouchEvent pn.1 pn.2
    let t := r.state.runPolls rest
    (r.ret :: t.1, t.2)

/-- Whether an eTouchEvent value is one of the two edge events. -/
def isEdgeEvent : eTouchEvent → Bool
  | .TS_TOUCH_EVENT => true
  | .TS_RELEASE_EVENT => true
  | _ => false

/-- Number `flipN n b` of boolean flips applied to `b`. -/
def flipN : Nat → Bool → Bool
  | 0, b => b
  | n + 1, b => flipN n (!b)

/-- The strictly alternating edge-event list of length `n` whose first element
is the edge that leaves the confirmed state `b` (touch event from `false`,
release event from `true`). -/
def altEvents : Bool → Nat → List eTouchEvent
  | _, 0 => []
  | b, n + 1 =>
    (if b then eTouchEvent.TS_RELEASE_EVENT else eTouchEvent.TS_TOUCH_EVENT) ::
      altEvents (!b) n

/-- A TS_Display state holding the rotation-2 default calibration on a
240x320-pixel display; the concrete instance used by several witnesses. -/
def rot2State : TS_Display :=
  { TS_UL_X := 3800, TS_UL_Y := 3800, TS_LR_X := 275, TS_LR_Y := 275,
    debounceMS_TR := 20, minTouchPres := 5, maxReleasePres := 0,
    lastEventWasTouch := false, msTime := 0, pixelsX := 240, pixelsY := 320 }

/-- A TS_Display state holding the rotation-1 default calibration on a
320x240-pixel display. -/
def rot1State : TS_Display :=
  { TS_UL_X := 3820, TS_UL_Y := 3800, TS_LR_X := 295, TS_LR_Y := 275,
    debounceMS_TR := 20, minTouchPres := 5, maxReleasePres := 0,
    lastEventWasTouch := false, msTime := 0, pixelsX := 320, pixelsY := 240 }

/-- Storing an in-range value into an `int16_t` keeps it unchanged. -/
lemma toInt16_eq_self (v : Int) (h1 : -32768 ≤ v) (h2 : v ≤ 32767) :
    toInt16 v = v := by
  unfold toInt16
  omega

/-- The truncated remainder is smaller in absolute value than the divisor. -/
lemma tmod_natAbs_lt (a b : Int) (hb : b ≠ 0) :
    (Int.tmod a b).natAbs < b.natAbs := by
  have key : ∀ x : Int, 0 ≤ x → (Int.tmod x b).natAbs < b.natAbs := by
    intro x hx
    have h1 : 0 ≤ Int.tmod x b := Int.tmod_nonneg b hx
    have h2 : Int.tmod x b < (b.natAbs : Int) := by
      rcases lt_or_gt_of_ne hb with hbneg | hbpos
      · have h3 := Int.tmod_lt_of_pos x (neg_pos.mpr hbneg)
        rw [Int.tmod_neg] at h3
        omega
      · have h3 := Int.tmod_lt_of_pos x hbpos
        omega
    omega
  rcases le_or_lt 0 a with ha | ha
  · exact key a ha
  · have hneg : Int.tmod a b = -(Int.tmod (-a) b) := by
      rw [Int.tmod_def, Int.tmod_def, Int.neg_tdiv]
      ring
    have := key (-a) (by omega)
    omega

/-- C6: after begin, the default calibration bounds reproduce the rotation
seeding table exactly: rotation 0 gives {3820, 3930, 295, 395}
(= {4095-275, 4095-165, 4095-3800, 4095-3700}), rotation 1 gives
{3820, 3800, 295, 275}, rotation 2 gives {3800, 3800, 275, 275} and
rotation 3 gives {3800, 3930, 275, 395}. -/
theorem begin_rotation_seeding (s : TS_Display) (w h : Int) (now : Nat) :
    ((s.begin 0 w h now).TS_UL_X = 3820 ∧ (s.begin 0 w h now).TS_UL_Y = 3930 ∧
     (s.begin 0 w h now).TS_LR_X = 295 ∧ (s.begin 0 w h now).TS_LR_Y = 395) ∧
    ((s.begin 1 w h now).TS_UL_X = 3820 ∧ (s.begin 1 w h now).TS_UL_Y = 3800 ∧
     (s.begin 1 w h now).TS_LR_X = 295 ∧ (s.begin 1 w h now).TS_LR_Y = 275) ∧
    ((s.begin 2 w h now).TS_UL_X = 3800 ∧ (s.begin 2 w h now).TS_UL_Y = 3800 ∧
     (s.begin 2 w h now).TS_LR_X = 275 ∧ (s.begin 2 w h now).TS_LR_Y = 275) ∧
    ((s.begin 3 w h now).TS_UL_X = 3800 ∧ (s.begin 3 w h now).TS_UL_Y = 3930 ∧
     (s.begin 3 w h now).TS_LR_X = 275 ∧ (s.begin 3 w h now).TS_LR_Y = 395) :=
  ⟨⟨rfl, rfl, rfl, rfl⟩, ⟨rfl, rfl, rfl, rfl⟩,
   ⟨rfl, rfl, rfl, rfl⟩, ⟨rfl, rfl, rfl, rfl⟩⟩

/-- C9: GetCalibration_UL_LR returns the two reference pixel points
`(pixelOffset, pixelOffset)` and `(pixelsX-pixelOffset-1, pixelsY-pixelOffset-1)`
whenever the inset corner coordinates lie in the int16_t range. -/
theorem GetCalibration_UL_LR_formula (s : TS_Display) (pixelOffset : Int)
    (hx1 : -32768 ≤ s.pixelsX - pixelOffset - 1)
    (hx2 : s.pixelsX - pixelOffset - 1 ≤ 32767)
    (hy1 : -32768 ≤ s.pixelsY - pixelOffset - 1)
    (hy2 : s.pixelsY - pixelOffset - 1 ≤ 32767) :
    s.GetCalibration_UL_LR pixelOffset =
      (pixelOffset, pixelOffset,
       s.pixelsX - pixelOffset - 1, s.pixelsY - pixelOffset - 1) := by
  unfold TS_Display.GetCalibration_UL_LR
  rw [toInt16_eq_self _ hx1 hx2, toInt16_eq_self _ hy1 hy2]

/-- C9 witness: with pixelOffset 10 on a 320x240-pixel area the reference
points are ul = (10,10) and lr = (309,229). -/
theorem GetCalibration_UL_LR_formula_witness :
    rot1State.GetCalibration_UL_LR 10 = (10, 10, 309, 229) :=
  GetCalibration_UL_LR_formula rot1State 10 (by decide) (by decide)
    (by decide) (by decide)

/-- C1 counterexample: with the default thresholds (minTouch 5, maxRelease 0)
and confirmed state NoTouch, a poll with pressure 3 (inside the hysteresis
band) returns TS_UNCERTAIN, not the previous confirmed level TS_NO_TOUCH as
the claim states. -/
theorem hysteresis_band_counterexample :
    (rot2State.getTouchEvent ⟨100, 100, 3⟩ 7).ret ≠ eTouchEvent.TS_NO_TOUCH ∧
    (rot2State.getTouchEvent ⟨100, 100, 3⟩ 7).ret = eTouchEvent.TS_UNCERTAIN := by
  decide

/-- C1 amended: for a poll whose pressure lies strictly inside the hysteresis
band while the last confirmed state is NoTouch, getTouchEvent returns the
TS_UNCERTAIN level; the confirmed state stays NoTouch (unchanged, no edge
event is emitted) and the debounce timer is restarted. -/
theorem hysteresis_band_uncertain (s : TS_Display) (p : TS_Point) (now : Nat)
    (hlo : s.maxReleasePres < p.z) (hhi : p.z < s.minTouchPres)
    (hlast : s.lastEventWasTouch = false) :
    (s.getTouchEvent p now).ret = eTouchEvent.TS_UNCERTAIN ∧
    (s.getTouchEvent p now).state.lastEventWasTouch = false ∧
    (s.getTouchEvent p now).state.msTime = now % U32 := by
  have hc1 : ¬ (s.minTouchPres ≤ p.z) := by omega
  have hc2 : ¬ (p.z ≤ s.maxReleasePres) := by omega
  simp [TS_Display.getTouchEvent, TS_Display.classifyPair, hc1, hc2, hlast]

/-- C1 witness: the amended hysteresis behaviour at pressure 3 with the
default thresholds. -/
theorem hysteresis_band_uncertain_witness :
    (rot2State.getTouchEvent ⟨100, 100, 3⟩ 7).ret = eTouchEvent.TS_UNCERTAIN ∧
    (rot2State.getTouchEvent ⟨100, 100, 3⟩ 7).state.lastEventWasTouch = false ∧
    (rot2State.getTouchEvent ⟨100, 100, 3⟩ 7).state.msTime = 7 % U32 :=
  hysteresis_band_uncertain rot2State ⟨100, 100, 3⟩ 7 (by decide) (by decide) rfl

/-- Modelled from the spec: findTS_calibration guarded by the API-boundary
validation that §7 of the spec demands ("degenerate calibration input ...
must be rejected by validation at the API boundary ... surfaced to the caller
as an explicit error"); the rejected case returns `none`.  No such validation
exists anywhere in the source (TS_Display.cpp lines 169-181 divide
immediately), so this validating variant exists only for comparison with the
code. -/
def TS_Display.findTS_calibrationChecked (s : TS_Display)
    (xUL yUL xLR yLR TSxUL TSyUL TSxLR TSyLR : Int) : Option CalibResult :=
  if xUL = xLR ∨ yUL = yLR then none
  else some (s.findTS_calibration xUL yUL xLR yLR TSxUL TSyUL TSxLR TSyLR)

/-- C4 counterexample: at the degenerate input x_UL = x_LR = 10 the source's
findTS_calibration is not rejected and surfaces no error: the call completes
and returns a plain result (the x-axis division by zero is modelled by
`Int.tdiv _ 0 = 0`; the C float code produces an infinite scale there), while
the validation the claim asserts would return none. -/
theorem findTS_calibration_no_validation :
    rot2State.findTS_calibration 10 10 10 229 3651 3651 3651 462 =
      ⟨0, -863, 0, 3796⟩ ∧
    rot2State.findTS_calibrationChecked 10 10 10 229 3651 3651 3651 462 =
      none := by
  decide

/-- C4 amended: findTS_calibration itself performs no validation; on
non-degenerate inputs it computes exactly what the spec's validating API
would, and avoiding the degenerate case (an IEEE division by zero in the C
code) is the documented caller contract, not handled internally. -/
theorem findTS_calibration_checked_refines (s : TS_Display)
    (xUL yUL xLR yLR TSxUL TSyUL TSxLR TSyLR : Int)
    (hx : xUL ≠ xLR) (hy : yUL ≠ yLR) :
    s.findTS_calibrationChecked xUL yUL xLR yLR TSxUL TSyUL TSxLR TSyLR =
      some (s.findTS_calibration xUL yUL xLR yLR TSxUL TSyUL TSxLR TSyLR) := by
  simp [TS_Display.findTS_calibrationChecked, hx, hy]

/-- C4 witness: the validating API agrees with the source's solver at a
non-degenerate input. -/
theorem findTS_calibration_checked_refines_witness :
    rot2State.findTS_calibrationChecked 10 10 229 309 2053 2053 290 388 =
      some (rot2State.findTS_calibration 10 10 229 309 2053 2053 290 388) :=
  findTS_calibration_checked_refines rot2State 10 10 229 309 2053 2053 290 388
    (by decide) (by decide)

/-- C10: one getTouchEvent call leaves the calibration bounds, pixel extents,
thresholds and debounce duration unchanged (it mutates only the last-event
flag and the debounce timer), so the coordinate-mapping and calibration
operations behave identically before and after it; findTS_calibration only
returns its solved bounds, never applying them to the instance state. -/
lemma getTouchEvent_state_eq (s : TS_Display) (p : TS_Point) (now : Nat) :
    (s.getTouchEvent p now).state = s ∨
    (∃ b : Bool, (s.getTouchEvent p now).state =
      { s with msTime := now % U32, lastEventWasTouch := b }) := by
  unfold TS_Display.getTouchEvent
  repeat' split
  all_goals first
    | exact Or.inl rfl
    | exact Or.inr ⟨_, rfl⟩

theorem getTouchEvent_frame (s : TS_Display) (p : TS_Point) (now : Nat) :
    ((s.getTouchEvent p now).state.TS_UL_X = s.TS_UL_X ∧
     (s.getTouchEvent p now).state.TS_UL_Y = s.TS_UL_Y ∧
     (s.getTouchEvent p now).state.TS_LR_X = s.TS_LR_X ∧
     (s.getTouchEvent p now).state.TS_LR_Y = s.TS_LR_Y ∧
     (s.getTouchEvent p now).state.debounceMS_TR = s.debounceMS_TR ∧
     (s.getTouchEvent p now).state.minTouchPres = s.minTouchPres ∧
     (s.getTouchEvent p now).state.maxReleasePres = s.maxReleasePres ∧
     (s.getTouchEvent p now).state.pixelsX = s.pixelsX ∧
     (s.getTouchEvent p now).state.pixelsY = s.pixelsY) ∧
    (∀ a b : Int,
      (s.getTouchEvent p now).state.mapTStoDisplay a b = s.mapTStoDisplay a b) ∧
    (∀ a b : Int,
      (s.getTouchEvent p now).state.mapDisplayToTS a b = s.mapDisplayToTS a b) ∧
    (∀ o : Int,
      (s.getTouchEvent p now).state.GetCalibration_UL_LR o =
        s.GetCalibration_UL_LR o) ∧
    (∀ i1 i2 i3 i4 i5 i6 i7 i8 : Int,
      (s.getTouchEvent p now).state.findTS_calibration i1 i2 i3 i4 i5 i6 i7 i8 =
        s.findTS_calibration i1 i2 i3 i4 i5 i6 i7 i8) := by
  rcases getTouchEvent_state_eq s p now with h | ⟨b, h⟩ <;>
    rw [h] <;>
    simp [TS_Display.mapTStoDisplay, TS_Display.mapDisplayToTS,
      TS_Display.GetCalibration_UL_LR, TS_Display.findTS_calibration]

/-- Core per-axis fact about Arduino map: the output times the denominator
differs from the exact linear-interpolation numerator by less than the
denominator, i.e. the output is the exact interpolation value truncated
toward zero (within distance 1 of it). -/
lemma arduinoMap_interpolation (x u l P : Int) (h : l - u ≠ 0) :
    (arduinoMap x u l 0 P * (l - u) - (x - u) * P).natAbs
      < (l - u).natAbs := by
  have e : arduinoMap x u l 0 P = Int.tdiv ((x - u) * P) (l - u) := by
    simp [arduinoMap]
  rw [e]
  have h2 := Int.tdiv_add_tmod ((x - u) * P) (l - u)
  have h3 := tmod_natAbs_lt ((x - u) * P) (l - u) h
  have e2 : Int.tdiv ((x - u) * P) (l - u) * (l - u) - (x - u) * P
      = -(Int.tmod ((x - u) * P) (l - u)) := by
    linear_combination h2
  rw [e2, Int.natAbs_neg]
  exact h3

/-- C5 counterexample: with the rotation-2 default bounds on a 240-pixel
axis, sensor x = 3790 maps to pixel 0, but the exact interpolation value is
2400/3525 (about 0.68), so the nearest integer is 1: the code's value lies
more than half a unit from the exact value (`2*|p*(lrX-ulX) -
(sx-ulX)*pixelsX| > |lrX-ulX|`), hence it is not round-to-nearest. -/
theorem mapTStoDisplay_not_nearest :
    (rot2State.mapTStoDisplay 3790 3790).1 = 0 ∧
    2 * ((rot2State.mapTStoDisplay 3790 3790).1 * (275 - 3800)
          - (3790 - 3800) * 240).natAbs
      > (275 - 3800 : Int).natAbs := by
  decide

/-- C5 amended: for every calibration bounds with ulX ≠ lrX (and ulY ≠ lrY)
and every sensor input whose mapped value fits int16_t, mapTStoDisplay
computes the linear interpolation `(sensorX - ulX) * pixelsX / (lrX - ulX)`
with C truncating division — within one unit of the exact interpolation value
(stated denominator-cleared), truncated toward zero rather than rounded to
nearest, and unclamped. -/
theorem mapTStoDisplay_truncated_interpolation (s : TS_Display) (TSx TSy : Int)
    (hx : s.TS_UL_X ≠ s.TS_LR_X) (hy : s.TS_UL_Y ≠ s.TS_LR_Y)
    (hfx1 : -32768 ≤ arduinoMap TSx s.TS_UL_X s.TS_LR_X 0 s.pixelsX)
    (hfx2 : arduinoMap TSx s.TS_UL_X s.TS_LR_X 0 s.pixelsX ≤ 32767)
    (hfy1 : -32768 ≤ arduinoMap TSy s.TS_UL_Y s.TS_LR_Y 0 s.pixelsY)
    (hfy2 : arduinoMap TSy s.TS_UL_Y s.TS_LR_Y 0 s.pixelsY ≤ 32767) :
    ((s.mapTStoDisplay TSx TSy).1 * (s.TS_LR_X - s.TS_UL_X)
        - (TSx - s.TS_UL_X) * s.pixelsX).natAbs
      < (s.TS_LR_X - s.TS_UL_X).natAbs ∧
    ((s.mapTStoDisplay TSx TSy).2 * (s.TS_LR_Y - s.TS_UL_Y)
        - (TSy - s.TS_UL_Y) * s.pixelsY).natAbs
      < (s.TS_LR_Y - s.TS_UL_Y).natAbs := by
  have e1 : (s.mapTStoDisplay TSx TSy).1
      = arduinoMap TSx s.TS_UL_X s.TS_LR_X 0 s.pixelsX := by
    simp [TS_Display.mapTStoDisplay, toInt16_eq_self _ hfx1 hfx2]
  have e2 : (s.mapTStoDisplay TSx TSy).2
      = arduinoMap TSy s.TS_UL_Y s.TS_LR_Y 0 s.pixelsY := by
    simp [TS_Display.mapTStoDisplay, toInt16_eq_self _ hfy1 hfy2]
  rw [e1, e2]
  exact ⟨arduinoMap_interpolation TSx s.TS_UL_X s.TS_LR_X s.pixelsX
          (sub_ne_zero.mpr (Ne.symm hx)),
        arduinoMap_interpolation TSy s.TS_UL_Y s.TS_LR_Y s.pixelsY
          (sub_ne_zero.mpr (Ne.symm hy))⟩

/-- C5 witness: the truncated-interpolation bound at sensor (2000, 2000) with
the rotation-2 default bounds. -/
theorem mapTStoDisplay_truncated_interpolation_witness :
    ((rot2State.mapTStoDisplay 2000 2000).1 * (rot2State.TS_LR_X - rot2State.TS_UL_X)
        - (2000 - rot2State.TS_UL_X) * rot2State.pixelsX).natAbs
      < (rot2State.TS_LR_X - rot2State.TS_UL_X).natAbs ∧
    ((rot2State.mapTStoDisplay 2000 2000).2 * (rot2State.TS_LR_Y - rot2State.TS_UL_Y)
        - (2000 - rot2State.TS_UL_Y) * rot2State.pixelsY).natAbs
      < (rot2State.TS_LR_Y - rot2State.TS_UL_Y).natAbs :=
  mapTStoDisplay_truncated_interpolation rot2State 2000 2000 (by decide)
    (by decide) (by decide) (by decide) (by decide) (by decide)

/-- Core per-axis round-trip bound: mapping a sensor coordinate to a pixel
with Arduino map and back loses at most `|l - u| / P + 1` sensor units (the
sensor-units-per-pixel ratio, plus one for the second truncation). -/
lemma roundtrip_axis (u l P sx : Int) (hD : l - u ≠ 0) (hP : 0 < P) :
    (arduinoMap (arduinoMap sx u l 0 P) 0 P u l - sx).natAbs
      ≤ (l - u).natAbs / P.natAbs + 1 := by
  have hPne : P ≠ 0 := by omega
  have e1 : arduinoMap sx u l 0 P = Int.tdiv ((sx - u) * P) (l - u) := by
    simp [arduinoMap]
  rw [e1]
  set p := Int.tdiv ((sx - u) * P) (l - u) with hp
  have e2 : arduinoMap p 0 P u l = Int.tdiv (p * (l - u)) P + u := by
    simp [arduinoMap]
  rw [e2]
  set q := Int.tdiv (p * (l - u)) P with hq
  have h1 := Int.tdiv_add_tmod ((sx - u) * P) (l - u)
  have h2 := Int.tdiv_add_tmod (p * (l - u)) P
  rw [← hp] at h1
  rw [← hq] at h2
  have hr1 := tmod_natAbs_lt ((sx - u) * P) (l - u) hD
  have hr2 := tmod_natAbs_lt (p * (l - u)) P hPne
  have key : P * (q + u - sx)
      = -(Int.tmod ((sx - u) * P) (l - u)) - Int.tmod (p * (l - u)) P := by
    linear_combination h2 + h1
  have hD0 : 0 < (l - u).natAbs := Int.natAbs_pos.mpr hD
  have hP0 : 0 < P.natAbs := Int.natAbs_pos.mpr hPne
  have habs : P.natAbs * (q + u - sx).natAbs
      ≤ (l - u).natAbs + P.natAbs - 2 := by
    calc P.natAbs * (q + u - sx).natAbs
        = (P * (q + u - sx)).natAbs := (Int.natAbs_mul P _).symm
      _ = (-(Int.tmod ((sx - u) * P) (l - u)) - Int.tmod (p * (l - u)) P).natAbs := by
          rw [key]
      _ = (Int.tmod ((sx - u) * P) (l - u) + Int.tmod (p * (l - u)) P).natAbs := by
          rw [show -(Int.tmod ((sx - u) * P) (l - u)) - Int.tmod (p * (l - u)) P
              = -(Int.tmod ((sx - u) * P) (l - u) + Int.tmod (p * (l - u)) P) by ring,
            Int.natAbs_neg]
      _ ≤ (Int.tmod ((sx - u) * P) (l - u)).natAbs
            + (Int.tmod (p * (l - u)) P).natAbs := Int.natAbs_add_le _ _
      _ ≤ (l - u).natAbs + P.natAbs - 2 := by omega
  calc (q + u - sx).natAbs
      ≤ ((l - u).natAbs + P.natAbs - 2) / P.natAbs :=
        (Nat.le_div_iff_mul_le hP0).mpr (by rw [Nat.mul_comm]; exact habs)
    _ ≤ ((l - u).natAbs + P.natAbs) / P.natAbs :=
        Nat.div_le_div_right (by omega)
    _ = (l - u).natAbs / P.natAbs + 1 := Nat.add_div_right _ hP0

/-- C3 counterexample: with the rotation-2 default bounds on a 240x320
display, the sensor point (3790, 3790) maps to pixel (0, 0) and back to
sensor x = 3800: the x-axis round-trip error is 10, not within the claimed
±1 unit. -/
theorem roundtrip_counterexample :
    ((rot2State.mapDisplayToTS (rot2State.mapTStoDisplay 3790 3790).1
        (rot2State.mapTStoDisplay 3790 3790).2).1 - 3790).natAbs > 1 := by
  decide

/-- C3 amended: for every calibration bounds with ulX ≠ lrX and ulY ≠ lrY,
positive pixel extents, and sensor points whose intermediate mapped values
fit int16_t, the round trip mapDisplayToTS ∘ mapTStoDisplay recovers the
sensor point to within `|lr - ul| / pixels + 1` units per axis (the
sensor-units-per-pixel ratio plus one), not within ±1. -/
theorem roundtrip_within_ratio (s : TS_Display) (TSx TSy : Int)
    (hx : s.TS_UL_X ≠ s.TS_LR_X) (hy : s.TS_UL_Y ≠ s.TS_LR_Y)
    (hPx : 0 < s.pixelsX) (hPy : 0 < s.pixelsY)
    (hfx1 : -32768 ≤ arduinoMap TSx s.TS_UL_X s.TS_LR_X 0 s.pixelsX)
    (hfx2 : arduinoMap TSx s.TS_UL_X s.TS_LR_X 0 s.pixelsX ≤ 32767)
    (hfy1 : -32768 ≤ arduinoMap TSy s.TS_UL_Y s.TS_LR_Y 0 s.pixelsY)
    (hfy2 : arduinoMap TSy s.TS_UL_Y s.TS_LR_Y 0 s.pixelsY ≤ 32767)
    (hbx1 : -32768 ≤ arduinoMap (arduinoMap TSx s.TS_UL_X s.TS_LR_X 0 s.pixelsX)
        0 s.pixelsX s.TS_UL_X s.TS_LR_X)
    (hbx2 : arduinoMap (arduinoMap TSx s.TS_UL_X s.TS_LR_X 0 s.pixelsX)
        0 s.pixelsX s.TS_UL_X s.TS_LR_X ≤ 32767)
    (hby1 : -32768 ≤ arduinoMap (arduinoMap TSy s.TS_UL_Y s.TS_LR_Y 0 s.pixelsY)
        0 s.pixelsY s.TS_UL_Y s.TS_LR_Y)
    (hby2 : arduinoMap (arduinoMap TSy s.TS_UL_Y s.TS_LR_Y 0 s.pixelsY)
        0 s.pixelsY s.TS_UL_Y s.TS_LR_Y ≤ 32767) :
    ((s.mapDisplayToTS (s.mapTStoDisplay TSx TSy).1
        (s.mapTStoDisplay TSx TSy).2).1 - TSx).natAbs
      ≤ (s.TS_LR_X - s.TS_UL_X).natAbs / s.pixelsX.natAbs + 1 ∧
    ((s.mapDisplayToTS (s.mapTStoDisplay TSx TSy).1
        (s.mapTStoDisplay TSx TSy).2).2 - TSy).natAbs
      ≤ (s.TS_LR_Y - s.TS_UL_Y).natAbs / s.pixelsY.natAbs + 1 := by
  have e1 : (s.mapTStoDisplay TSx TSy).1
      = arduinoMap TSx s.TS_UL_X s.TS_LR_X 0 s.pixelsX := by
    simp [TS_Display.mapTStoDisplay, toInt16_eq_self _ hfx1 hfx2]
  have e2 : (s.mapTStoDisplay TSx TSy).2
      = arduinoMap TSy s.TS_UL_Y s.TS_LR_Y 0 s.pixelsY := by
    simp [TS_Display.mapTStoDisplay, toInt16_eq_self _ hfy1 hfy2]
  have e3 : (s.mapDisplayToTS (s.mapTStoDisplay TSx TSy).1
        (s.mapTStoDisplay TSx TSy).2).1
      = arduinoMap (arduinoMap TSx s.TS_UL_X s.TS_LR_X 0 s.pixelsX)
          0 s.pixelsX s.TS_UL_X s.TS_LR_X := by
    rw [TS_Display.mapDisplayToTS, e1]
    simp [toInt16_eq_self _ hbx1 hbx2]
  have e4 : (s.mapDisplayToTS (s.mapTStoDisplay TSx TSy).1
        (s.mapTStoDisplay TSx TSy).2).2
      = arduinoMap (arduinoMap TSy s.TS_UL_Y s.TS_LR_Y 0 s.pixelsY)
          0 s.pixelsY s.TS_UL_Y s.TS_LR_Y := by
    rw [TS_Display.mapDisplayToTS, e2]
    simp [toInt16_eq_self _ hby1 hby2]
  rw [e3, e4]
  exact ⟨roundtrip_axis s.TS_UL_X s.TS_LR_X s.pixelsX TSx
          (sub_ne_zero.mpr (Ne.symm hx)) hPx,
        roundtrip_axis s.TS_UL_Y s.TS_LR_Y s.pixelsY TSy
          (sub_ne_zero.mpr (Ne.symm hy)) hPy⟩

/-- C3 witness: the ratio-bounded round trip at sensor (2000, 2000) with the
rotation-2 default bounds (bounds 3525/240 + 1 = 15 and 3525/320 + 1 = 12). -/
theorem roundtrip_within_ratio_witness :
    ((rot2State.mapDisplayToTS (rot2State.mapTStoDisplay 2000 2000).1
        (rot2State.mapTStoDisplay 2000 2000).2).1 - 2000).natAbs
      ≤ (rot2State.TS_LR_X - rot2State.TS_UL_X).natAbs / rot2State.pixelsX.natAbs + 1 ∧
    ((rot2State.mapDisplayToTS (rot2State.mapTStoDisplay 2000 2000).1
        (rot2State.mapTStoDisplay 2000 2000).2).2 - 2000).natAbs
      ≤ (rot2State.TS_LR_Y - rot2State.TS_UL_Y).natAbs / rot2State.pixelsY.natAbs + 1 :=
  roundtrip_within_ratio rot2State 2000 2000 (by decide) (by decide)
    (by decide) (by decide) (by decide) (by decide) (by decide) (by decide)
    (by decide) (by decide) (by decide) (by decide)

/-- Wrapped uint32 subtraction recovers a true elapsed time below 2^32 even
when the millisecond clock wraps between the two samples. -/
lemma wsub32_elapsed (t0 d : Nat) (hd : d < U32) :
    wsub32 ((t0 + d) % U32) (t0 % U32) = d := by
  simp only [wsub32, U32] at *
  omega

/-- C8: when the candidate classification differs from the confirmed state
(a pending state change), getTouchEvent confirms it and emits the edge event
exactly when the wrapping uint32 difference `millis() - _msTime` reaches
_debounceMS_TR: for every timer-start value t0 and true elapsed time d below
2^32, polling at clock value (t0 + d) mod 2^32 with the timer started at
t0 mod 2^32 emits the event iff d has reached the debounce duration —
correct across clock wraparound. -/
theorem debounce_wraparound (s : TS_Display) (p : TS_Point) (t0 d : Nat)
    (hd : d < U32) (hms : s.msTime = t0 % U32)
    (hpend : (s.classifyPair p.z).1 ≠ s.lastEventWasTouch) :
    (isEdgeEvent (s.getTouchEvent p ((t0 + d) % U32)).ret = true
      ↔ s.debounceMS_TR ≤ d) := by
  have hw : wsub32 ((t0 + d) % U32) s.msTime = d := by
    rw [hms]
    exact wsub32_elapsed t0 d hd
  unfold TS_Display.getTouchEvent
  rw [if_neg (Ne.symm hpend), hw]
  by_cases hlt : d < s.debounceMS_TR
  · rw [if_pos hlt]
    have hnoedge : isEdgeEvent (s.classifyPair p.z).2 = false := by
      unfold TS_Display.classifyPair at hpend ⊢
      split_ifs at hpend ⊢ <;> simp [isEdgeEvent] at hpend ⊢
    simp only [hnoedge]
    exact iff_of_false (by simp) (by omega)
  · rw [if_neg hlt]
    have hedge : isEdgeEvent
        (if (s.classifyPair p.z).1 then eTouchEvent.TS_TOUCH_EVENT
         else eTouchEvent.TS_RELEASE_EVENT) = true := by
      cases h : (s.classifyPair p.z).1 <;> simp [isEdgeEvent]
    simp only [hedge]
    exact iff_of_true trivial (by omega)

/-- A state like rot2State whose debounce timer was started 10 ms before the
uint32 millisecond clock wraps around. -/
def wrapState : TS_Display :=
  { rot2State with msTime := 4294967286 }

/-- C8 witness: with the timer started at 2^32 - 10 and 25 ms elapsed (the
clock itself has wrapped to 15), a pending touch is confirmed because
25 >= 20. -/
theorem debounce_wraparound_witness :
    (isEdgeEvent (wrapState.getTouchEvent ⟨0, 0, 10⟩
        ((4294967286 + 25) % U32)).ret = true
      ↔ wrapState.debounceMS_TR ≤ 25) :=
  debounce_wraparound wrapState ⟨0, 0, 10⟩ 4294967286 25 (by decide)
    (by decide) (by decide)

/-- The classification pair's level state is never an edge event. -/
lemma classifyPair_not_edge (s : TS_Display) (pres : Int) :
    isEdgeEvent (s.classifyPair pres).2 = false := by
  unfold TS_Display.classifyPair
  split_ifs <;> rfl

/-- One getTouchEvent poll either emits no edge event and keeps the confirmed
state, or emits exactly the edge that leaves the confirmed state and flips
it. -/
lemma getTouchEvent_step_alt (s : TS_Display) (p : TS_Point) (now : Nat) :
    (isEdgeEvent (s.getTouchEvent p now).ret = false ∧
      (s.getTouchEvent p now).state.lastEventWasTouch = s.lastEventWasTouch) ∨
    ((s.getTouchEvent p now).ret
        = (if s.lastEventWasTouch then eTouchEvent.TS_RELEASE_EVENT
           else eTouchEvent.TS_TOUCH_EVENT) ∧
      (s.getTouchEvent p now).state.lastEventWasTouch = !s.lastEventWasTouch) := by
  unfold TS_Display.getTouchEvent
  by_cases h1 : s.lastEventWasTouch = (s.classifyPair p.z).1
  · rw [if_pos h1]
    exact Or.inl ⟨classifyPair_not_edge s p.z, rfl⟩
  · rw [if_neg h1]
    by_cases h2 : wsub32 now s.msTime < s.debounceMS_TR
    · rw [if_pos h2]
      exact Or.inl ⟨classifyPair_not_edge s p.z, rfl⟩
    · rw [if_neg h2]
      right
      have hc : (s.classifyPair p.z).1 = !s.lastEventWasTouch := by
        cases hb : s.lastEventWasTouch <;> cases hcp : (s.classifyPair p.z).1 <;>
          simp_all
      constructor
      · show (if (s.classifyPair p.z).1 then eTouchEvent.TS_TOUCH_EVENT
             else eTouchEvent.TS_RELEASE_EVENT) = _
        rw [hc]
        cases hb : s.lastEventWasTouch <;> rfl
      · show (s.classifyPair p.z).1 = !s.lastEventWasTouch
        exact hc

/-- The edge events of any poll run form an alternating list that starts by
leaving the initial confirmed state, and the final confirmed state is the
initial one flipped once per event. -/
lemma runPolls_altEvents (l : List (TS_Point × Nat)) :
    ∀ s : TS_Display, ∃ n,
      ((s.runPolls l).1.filter isEdgeEvent) = altEvents s.lastEventWasTouch n ∧
      (s.runPolls l).2.lastEventWasTouch = flipN n s.lastEventWasTouch := by
  induction l with
  | nil => exact fun s => ⟨0, rfl, rfl⟩
  | cons pn rest ih =>
    intro s
    obtain ⟨n, he, hf⟩ := ih (s.getTouchEvent pn.1 pn.2).state
    have hrun : (s.runPolls (pn :: rest)).1
        = (s.getTouchEvent pn.1 pn.2).ret ::
            ((s.getTouchEvent pn.1 pn.2).state.runPolls rest).1 := rfl
    have hrun2 : (s.runPolls (pn :: rest)).2
        = ((s.getTouchEvent pn.1 pn.2).state.runPolls rest).2 := rfl
    rcases getTouchEvent_step_alt s pn.1 pn.2 with ⟨hne, hst⟩ | ⟨hret, hst⟩
    · refine ⟨n, ?_, ?_⟩
      · rw [hrun, List.filter_cons, hne]
        simp only [Bool.false_eq_true, if_false]
        rw [he, hst]
      · rw [hrun2, hf, hst]
    · refine ⟨n + 1, ?_, ?_⟩
      · have hedge : isEdgeEvent (s.getTouchEvent pn.1 pn.2).ret = true := by
          rw [hret]; cases hb : s.lastEventWasTouch <;> rfl
        rw [hrun, List.filter_cons, hedge]
        simp only [if_true]
        rw [he, hst, hret]
        cases hb : s.lastEventWasTouch <;> simp [altEvents]
      · rw [hrun2, hf, hst]
        rfl

/-- Strict alternation of the altEvents list. -/
lemma altEvents_chain : ∀ (n : Nat) (b : Bool),
    List.Chain' (fun a c => a ≠ c) (altEvents b n) := by
  intro n
  induction n with
  | zero => intro b; simp [altEvents]
  | succ n ih =>
    intro b
    cases n with
    | zero => simp [altEvents]
    | succ m =>
      refine List.chain'_cons.mpr ⟨?_, ih (!b)⟩
      cases b <;> decide

/-- Touch-event and release-event counts of the altEvents list differ by the
number of net state flips. -/
lemma altEvents_count : ∀ (n : Nat) (b : Bool),
    (altEvents b n).count eTouchEvent.TS_TOUCH_EVENT + (cond b 1 0)
      = (altEvents b n).count eTouchEvent.TS_RELEASE_EVENT
        + (cond (flipN n b) 1 0) := by
  intro n
  induction n with
  | zero => intro b; simp [altEvents, flipN]
  | succ n ih =>
    intro b
    have h := ih (!b)
    cases b <;> simp [altEvents, flipN, List.count_cons] at h ⊢ <;> omega

/-- C2: over every finite poll sequence started from a confirmed-NoTouch
state, the emitted edge events strictly alternate (no two adjacent emitted
edges are equal — and the emitted values are only the two edge events, being
the isEdgeEvent filter of the outputs), and the number of TouchEvents minus
ReleaseEvents always stays 0 or 1: releases never outnumber touches and
touches never lead by more than one. -/
theorem edge_alternation (s : TS_Display) (l : List (TS_Point × Nat))
    (h : s.lastEventWasTouch = false) :
    List.Chain' (fun a b => a ≠ b) ((s.runPolls l).1.filter isEdgeEvent) ∧
    ((s.runPolls l).1.filter isEdgeEvent).count eTouchEvent.TS_RELEASE_EVENT
      ≤ ((s.runPolls l).1.filter isEdgeEvent).count eTouchEvent.TS_TOUCH_EVENT ∧
    ((s.runPolls l).1.filter isEdgeEvent).count eTouchEvent.TS_TOUCH_EVENT
      ≤ ((s.runPolls l).1.filter isEdgeEvent).count eTouchEvent.TS_RELEASE_EVENT
          + 1 := by
  obtain ⟨n, he, -⟩ := runPolls_altEvents l s
  rw [he, h]
  have h2 := altEvents_count n false
  have hchain := altEvents_chain n false
  cases hfn : flipN n false <;> rw [hfn] at h2 <;> simp at h2 <;>
    exact ⟨hchain, by omega, by omega⟩

/-- A four-poll input sequence producing one touch and one release event. -/
def samplePolls : List (TS_Point × Nat) :=
  [(⟨1000, 1000, 10⟩, 0), (⟨1000, 1000, 10⟩, 25),
   (⟨1000, 1000, 0⟩, 30), (⟨1000, 1000, 0⟩, 60)]

/-- C2 witness: alternation and the count bounds on a concrete four-poll run
from the initial confirmed-NoTouch state. -/
theorem edge_alternation_witness :
    List.Chain' (fun a b => a ≠ b)
      ((rot2State.runPolls samplePolls).1.filter isEdgeEvent) ∧
    ((rot2State.runPolls samplePolls).1.filter isEdgeEvent).count
        eTouchEvent.TS_RELEASE_EVENT
      ≤ ((rot2State.runPolls samplePolls).1.filter isEdgeEvent).count
          eTouchEvent.TS_TOUCH_EVENT ∧
    ((rot2State.runPolls samplePolls).1.filter isEdgeEvent).count
        eTouchEvent.TS_TOUCH_EVENT
      ≤ ((rot2State.runPolls samplePolls).1.filter isEdgeEvent).count
          eTouchEvent.TS_RELEASE_EVENT + 1 :=
  edge_alternation rot2State samplePolls rfl

/-- Linear auxiliary inequality for the solver error bound. -/
lemma mul_bound_aux (x y pz nz : Int) (hx : 0 ≤ x) (hy : 0 ≤ y)
    (hp : 1 ≤ pz) (hn : 1 ≤ nz) :
    x * (pz - 1) + y * (pz - 1) + pz * (nz - 1) < pz * (x + y + nz) := by
  nlinarith

/-- Generic error-propagation step for the calibration solver: if
`P * (N * E) = c1 * r2 - c2 * r1 - P * q` with each remainder smaller than its
divisor, then `|E| * |N| < |c1| + |c2| + |N|`. -/
lemma calib_bound_step (P N E c1 c2 r1 r2 q : Int)
    (hP : 0 < P) (hN : N ≠ 0)
    (key : P * (N * E) = c1 * r2 - c2 * r1 - P * q)
    (hb1 : r1.natAbs < P.natAbs) (hb2 : r2.natAbs < P.natAbs)
    (hb3 : q.natAbs < N.natAbs) :
    E.natAbs * N.natAbs < c1.natAbs + c2.natAbs + N.natAbs := by
  have e5 : P.natAbs * (N.natAbs * E.natAbs)
      = (c1 * r2 - c2 * r1 - P * q).natAbs := by
    rw [← Int.natAbs_mul, ← Int.natAbs_mul, key]
  have e6 : (c1 * r2 - c2 * r1 - P * q).natAbs
      ≤ c1.natAbs * r2.natAbs + c2.natAbs * r1.natAbs
          + P.natAbs * q.natAbs := by
    calc (c1 * r2 - c2 * r1 - P * q).natAbs
        = (c1 * r2 + (-(c2 * r1)) + (-(P * q))).natAbs := by ring_nf
      _ ≤ (c1 * r2 + (-(c2 * r1))).natAbs + (-(P * q)).natAbs :=
          Int.natAbs_add_le _ _
      _ ≤ (c1 * r2).natAbs + (-(c2 * r1)).natAbs + (-(P * q)).natAbs := by
          have := Int.natAbs_add_le (c1 * r2) (-(c2 * r1))
          omega
      _ = c1.natAbs * r2.natAbs + c2.natAbs * r1.natAbs
            + P.natAbs * q.natAbs := by
          rw [Int.natAbs_neg, Int.natAbs_neg, Int.natAbs_mul, Int.natAbs_mul,
            Int.natAbs_mul]
  have hp1 : 1 ≤ P.natAbs := by omega
  have hn1 : 1 ≤ N.natAbs := Int.natAbs_pos.mpr hN
  have s2 : c1.natAbs * r2.natAbs ≤ c1.natAbs * (P.natAbs - 1) :=
    Nat.mul_le_mul_left _ (by omega)
  have s3 : c2.natAbs * r1.natAbs ≤ c2.natAbs * (P.natAbs - 1) :=
    Nat.mul_le_mul_left _ (by omega)
  have s4 : P.natAbs * q.natAbs ≤ P.natAbs * (N.natAbs - 1) :=
    Nat.mul_le_mul_left _ (by omega)
  have h5 : c1.natAbs * (P.natAbs - 1) + c2.natAbs * (P.natAbs - 1)
      + P.natAbs * (N.natAbs - 1)
      < P.natAbs * (c1.natAbs + c2.natAbs + N.natAbs) := by
    have hz := mul_bound_aux |(c1 : Int)| |(c2 : Int)| |(P : Int)| |(N : Int)|
      (abs_nonneg _) (abs_nonneg _)
      (by rw [Int.abs_eq_natAbs]; exact_mod_cast hp1)
      (by rw [Int.abs_eq_natAbs]; exact_mod_cast hn1)
    zify [hp1, hn1]
    exact_mod_cast hz
  have hineq : P.natAbs * (N.natAbs * E.natAbs)
      < P.natAbs * (c1.natAbs + c2.natAbs + N.natAbs) := by
    calc P.natAbs * (N.natAbs * E.natAbs)
        ≤ c1.natAbs * r2.natAbs + c2.natAbs * r1.natAbs
            + P.natAbs * q.natAbs := e5 ▸ e6
      _ ≤ c1.natAbs * (P.natAbs - 1) + c2.natAbs * (P.natAbs - 1)
            + P.natAbs * (N.natAbs - 1) :=
          Nat.add_le_add (Nat.add_le_add s2 s3) s4
      _ < P.natAbs * (c1.natAbs + c2.natAbs + N.natAbs) := h5
  have h6 := Nat.lt_of_mul_lt_mul_left hineq
  rw [Nat.mul_comm]
  exact h6

/-- Per-axis error bounds of the calibration solver run on the two reference
points `o` and `P - o - 1` whose sensor images were computed from bounds
`(u, l)` by the truncating reverse map: the recovered UL and LR bounds are
within `(|o| + |P-o-1|)/|N| + 1` resp. `(|o+1| + |P-o|)/|N| + 1` of `u` and
`l`, where `N = (P-o-1) - o` is the pixel distance between the reference
points (stated denominator-cleared). -/
lemma calib_axis_bounds (u l P o : Int) (hP : 0 < P)
    (hN : (P - o - 1) - o ≠ 0) :
    (Int.tdiv ((Int.tdiv (o * (l - u)) P + u) * ((P - o - 1) - o)
          + (0 - o) * ((Int.tdiv ((P - o - 1) * (l - u)) P + u)
              - (Int.tdiv (o * (l - u)) P + u)))
        ((P - o - 1) - o) - u).natAbs * ((P - o - 1) - o).natAbs
      < o.natAbs + (P - o - 1).natAbs + ((P - o - 1) - o).natAbs ∧
    (Int.tdiv ((Int.tdiv (o * (l - u)) P + u) * ((P - o - 1) - o)
          + (P - o) * ((Int.tdiv ((P - o - 1) * (l - u)) P + u)
              - (Int.tdiv (o * (l - u)) P + u)))
        ((P - o - 1) - o) - l).natAbs * ((P - o - 1) - o).natAbs
      < (o + 1).natAbs + (P - o).natAbs + ((P - o - 1) - o).natAbs := by
  have hPne : P ≠ 0 := by omega
  have h1 := Int.tdiv_add_tmod (o * (l - u)) P
  have h2 := Int.tdiv_add_tmod ((P - o - 1) * (l - u)) P
  have hb1 := tmod_natAbs_lt (o * (l - u)) P hPne
  have hb2 := tmod_natAbs_lt ((P - o - 1) * (l - u)) P hPne
  constructor
  · have h3 := Int.tdiv_add_tmod
      ((Int.tdiv (o * (l - u)) P + u) * ((P - o - 1) - o)
        + (0 - o) * ((Int.tdiv ((P - o - 1) * (l - u)) P + u)
            - (Int.tdiv (o * (l - u)) P + u))) ((P - o - 1) - o)
    have hb3 := tmod_natAbs_lt
      ((Int.tdiv (o * (l - u)) P + u) * ((P - o - 1) - o)
        + (0 - o) * ((Int.tdiv ((P - o - 1) * (l - u)) P + u)
            - (Int.tdiv (o * (l - u)) P + u))) ((P - o - 1) - o) hN
    refine calib_bound_step P ((P - o - 1) - o) _ o (P - o - 1)
      (Int.tmod (o * (l - u)) P)
      (Int.tmod ((P - o - 1) * (l - u)) P)
      (Int.tmod _ ((P - o - 1) - o)) hP hN ?_ hb1 hb2 hb3
    linear_combination P * h3 + (P - o - 1) * h1 - o * h2
  · have h4 := Int.tdiv_add_tmod
      ((Int.tdiv (o * (l - u)) P + u) * ((P - o - 1) - o)
        + (P - o) * ((Int.tdiv ((P - o - 1) * (l - u)) P + u)
            - (Int.tdiv (o * (l - u)) P + u))) ((P - o - 1) - o)
    have hb4 := tmod_natAbs_lt
      ((Int.tdiv (o * (l - u)) P + u) * ((P - o - 1) - o)
        + (P - o) * ((Int.tdiv ((P - o - 1) * (l - u)) P + u)
            - (Int.tdiv (o * (l - u)) P + u))) ((P - o - 1) - o) hN
    refine calib_bound_step P ((P - o - 1) - o) _ (o + 1) (P - o)
      (Int.tmod ((P - o - 1) * (l - u)) P)
      (Int.tmod (o * (l - u)) P)
      (Int.tmod _ ((P - o - 1) - o)) hP hN ?_ hb2 hb1 hb4
    linear_combination P * h4 - (o + 1) * h1 + (P - o) * h2

/-- The full calibration round trip: reference points from
GetCalibration_UL_LR, their sensor images from mapDisplayToTS, and the solved
bounds from findTS_calibration. -/
def calibPipeline (s : TS_Display) (o : Int) : CalibResult :=
  s.findTS_calibration
    (s.GetCalibration_UL_LR o).1 (s.GetCalibration_UL_LR o).2.1
    (s.GetCalibration_UL_LR o).2.2.1 (s.GetCalibration_UL_LR o).2.2.2
    (s.mapDisplayToTS (s.GetCalibration_UL_LR o).1
      (s.GetCalibration_UL_LR o).2.1).1
    (s.mapDisplayToTS (s.GetCalibration_UL_LR o).1
      (s.GetCalibration_UL_LR o).2.1).2
    (s.mapDisplayToTS (s.GetCalibration_UL_LR o).2.2.1
      (s.GetCalibration_UL_LR o).2.2.2).1
    (s.mapDisplayToTS (s.GetCalibration_UL_LR o).2.2.1
      (s.GetCalibration_UL_LR o).2.2.2).2

/-- C7 counterexample: on the rotation-2 defaults (240x320), pixel offset 119
puts the two reference points one x-pixel apart; the solver then misses the
original bounds by 38 (UL_X) and 37 (LR_X) sensor units — far outside any
per-unit rounding tolerance, so the solver is not a left inverse up to
rounding in the claim's unqualified sense. -/
theorem findTS_calibration_not_within_one :
    ¬(((calibPipeline rot2State 119).TS_UL_X - rot2State.TS_UL_X).natAbs ≤ 1 ∧
      ((calibPipeline rot2State 119).TS_LR_X - rot2State.TS_LR_X).natAbs ≤ 1 ∧
      ((calibPipeline rot2State 119).TS_UL_Y - rot2State.TS_UL_Y).natAbs ≤ 1 ∧
      ((calibPipeline rot2State 119).TS_LR_Y - rot2State.TS_LR_Y).natAbs ≤ 1) := by
  decide

/-- C7 amended: the solver is a left inverse of the forward mapping up to an
error that shrinks with the pixel distance `N = (pixels - offset - 1) -
offset` between the two reference points: per axis, `|recovered - original| *
|N| < |o| + |pixels - o - 1| + |N|` for the UL bound and `|recovered -
original| * |N| < |o + 1| + |pixels - o| + |N|` for the LR bound (i.e. error
< (|o| + |pixels-o-1|)/|N| + 1 resp. (|o+1| + |pixels-o|)/|N| + 1), provided
the reference points are distinct on both axes and the intermediate int16_t
stores do not overflow. -/
theorem findTS_calibration_left_inverse (s : TS_Display) (o : Int)
    (hP : 0 < s.pixelsX) (hQ : 0 < s.pixelsY)
    (hNx : (s.pixelsX - o - 1) - o ≠ 0) (hNy : (s.pixelsY - o - 1) - o ≠ 0)
    (hgx1 : -32768 ≤ s.pixelsX - o - 1) (hgx2 : s.pixelsX - o - 1 ≤ 32767)
    (hgy1 : -32768 ≤ s.pixelsY - o - 1) (hgy2 : s.pixelsY - o - 1 ≤ 32767)
    (hA1x1 : -32768 ≤ arduinoMap o 0 s.pixelsX s.TS_UL_X s.TS_LR_X)
    (hA1x2 : arduinoMap o 0 s.pixelsX s.TS_UL_X s.TS_LR_X ≤ 32767)
    (hA1y1 : -32768 ≤ arduinoMap o 0 s.pixelsY s.TS_UL_Y s.TS_LR_Y)
    (hA1y2 : arduinoMap o 0 s.pixelsY s.TS_UL_Y s.TS_LR_Y ≤ 32767)
    (hA2x1 : -32768 ≤ arduinoMap (s.pixelsX - o - 1) 0 s.pixelsX
        s.TS_UL_X s.TS_LR_X)
    (hA2x2 : arduinoMap (s.pixelsX - o - 1) 0 s.pixelsX
        s.TS_UL_X s.TS_LR_X ≤ 32767)
    (hA2y1 : -32768 ≤ arduinoMap (s.pixelsY - o - 1) 0 s.pixelsY
        s.TS_UL_Y s.TS_LR_Y)
    (hA2y2 : arduinoMap (s.pixelsY - o - 1) 0 s.pixelsY
        s.TS_UL_Y s.TS_LR_Y ≤ 32767)
    (g : Int × Int × Int × Int) (a b : Int × Int) (r : CalibResult)
    (hg : g = s.GetCalibration_UL_LR o)
    (ha : a = s.mapDisplayToTS g.1 g.2.1)
    (hb : b = s.mapDisplayToTS g.2.2.1 g.2.2.2)
    (hr : r = s.findTS_calibration g.1 g.2.1 g.2.2.1 g.2.2.2 a.1 a.2 b.1 b.2) :
    (r.TS_UL_X - s.TS_UL_X).natAbs * ((s.pixelsX - o - 1) - o).natAbs
        < o.natAbs + (s.pixelsX - o - 1).natAbs
            + ((s.pixelsX - o - 1) - o).natAbs ∧
    (r.TS_LR_X - s.TS_LR_X).natAbs * ((s.pixelsX - o - 1) - o).natAbs
        < (o + 1).natAbs + (s.pixelsX - o).natAbs
            + ((s.pixelsX - o - 1) - o).natAbs ∧
    (r.TS_UL_Y - s.TS_UL_Y).natAbs * ((s.pixelsY - o - 1) - o).natAbs
        < o.natAbs + (s.pixelsY - o - 1).natAbs
            + ((s.pixelsY - o - 1) - o).natAbs ∧
    (r.TS_LR_Y - s.TS_LR_Y).natAbs * ((s.pixelsY - o - 1) - o).natAbs
        < (o + 1).natAbs + (s.pixelsY - o).natAbs
            + ((s.pixelsY - o - 1) - o).natAbs := by
  have hgc : s.GetCalibration_UL_LR o
      = (o, o, s.pixelsX - o - 1, s.pixelsY - o - 1) := by
    unfold TS_Display.GetCalibration_UL_LR
    rw [toInt16_eq_self _ hgx1 hgx2, toInt16_eq_self _ hgy1 hgy2]
  subst hr hb ha hg
  rw [hgc]
  have hx := calib_axis_bounds s.TS_UL_X s.TS_LR_X s.pixelsX o hP hNx
  have hy := calib_axis_bounds s.TS_UL_Y s.TS_LR_Y s.pixelsY o hQ hNy
  have ex1 : arduinoMap o 0 s.pixelsX s.TS_UL_X s.TS_LR_X
      = (o * (s.TS_LR_X - s.TS_UL_X)).tdiv s.pixelsX + s.TS_UL_X := by
    simp [arduinoMap]
  have ex2 : arduinoMap (s.pixelsX - o - 1) 0 s.pixelsX s.TS_UL_X s.TS_LR_X
      = ((s.pixelsX - o - 1) * (s.TS_LR_X - s.TS_UL_X)).tdiv s.pixelsX
          + s.TS_UL_X := by
    simp [arduinoMap]
  have ey1 : arduinoMap o 0 s.pixelsY s.TS_UL_Y s.TS_LR_Y
      = (o * (s.TS_LR_Y - s.TS_UL_Y)).tdiv s.pixelsY + s.TS_UL_Y := by
    simp [arduinoMap]
  have ey2 : arduinoMap (s.pixelsY - o - 1) 0 s.pixelsY s.TS_UL_Y s.TS_LR_Y
      = ((s.pixelsY - o - 1) * (s.TS_LR_Y - s.TS_UL_Y)).tdiv s.pixelsY
          + s.TS_UL_Y := by
    simp [arduinoMap]
  rw [ex1] at hA1x1 hA1x2
  rw [ex2] at hA2x1 hA2x2
  rw [ey1] at hA1y1 hA1y2
  rw [ey2] at hA2y1 hA2y2
  simp only [TS_Display.mapDisplayToTS, TS_Display.findTS_calibration,
    arduinoMap, sub_zero,
    toInt16_eq_self _ hA1x1 hA1x2, toInt16_eq_self _ hA1y1 hA1y2,
    toInt16_eq_self _ hA2x1 hA2x2, toInt16_eq_self _ hA2y1 hA2y2]
  exact ⟨hx.1, hx.2, hy.1, hy.2⟩

/-- C7 witness: the error bounds at offset 10 on the rotation-2 defaults (the
solver in fact recovers {3800, 3800, 275, 275} exactly there). -/
theorem findTS_calibration_left_inverse_witness :
    ((calibPipeline rot2State 10).TS_UL_X - rot2State.TS_UL_X).natAbs
        * ((rot2State.pixelsX - 10 - 1) - 10).natAbs
      < (10 : Int).natAbs + (rot2State.pixelsX - 10 - 1).natAbs
          + ((rot2State.pixelsX - 10 - 1) - 10).natAbs ∧
    ((calibPipeline rot2State 10).TS_LR_X - rot2State.TS_LR_X).natAbs
        * ((rot2State.pixelsX - 10 - 1) - 10).natAbs
      < ((10 : Int) + 1).natAbs + (rot2State.pixelsX - 10).natAbs
          + ((rot2State.pixelsX - 10 - 1) - 10).natAbs ∧
    ((calibPipeline rot2State 10).TS_UL_Y - rot2State.TS_UL_Y).natAbs
        * ((rot2State.pixelsY - 10 - 1) - 10).natAbs
      < (10 : Int).natAbs + (rot2State.pixelsY - 10 - 1).natAbs
          + ((rot2State.pixelsY - 10 - 1) - 10).natAbs ∧
    ((calibPipeline rot2State 10).TS_LR_Y - rot2State.TS_LR_Y).natAbs
        * ((rot2State.pixelsY - 10 - 1) - 10).natAbs
      < ((10 : Int) + 1).natAbs + (rot2State.pixelsY - 10).natAbs
          + ((rot2State.pixelsY - 10 - 1) - 10).natAbs :=
  findTS_calibration_left_inverse rot2State 10 (by decide) (by decide)
    (by decide) (by decide) (by decide) (by decide) (by decide) (by decide)
    (by decide) (by decide) (by decide) (by decide) (by decide) (by decide)
    (by decide) (by decide)
    (rot2State.GetCalibration_UL_LR 10)
    (rot2State.mapDisplayToTS (rot2State.GetCalibration_UL_LR 10).1
      (rot2State.GetCalibration_UL_LR 10).2.1)
    (rot2State.mapDisplayToTS (rot2State.GetCalibration_UL_LR 10).2.2.1
      (rot2State.GetCalibration_UL_LR 10).2.2.2)
    (calibPipeline rot2State 10) rfl rfl rfl rfl
